import Mathlib

/-!
Verification of the BTC flush-predictor scoring engine (`src/flusherr.py`).

The source is a small heuristic pipeline: a funding-pressure score, a
structural-breakdown score and a time-regime label are combined by an
ordered rule list into a flush probability, a target price, a signal and a
confidence label.  Python floats are modelled by exact rationals; the two
divisions whose denominators are inputs (`resistance_level`, `support_level`)
are modelled by a checked division that fails where Python would raise
`ZeroDivisionError`.  The mutable predictor instance (`self.flush_probability`
and the `self.features` dict) is threaded explicitly, and the wall-clock hour
read by `time_regime_classifier` is passed as an explicit argument, as the
specification requires the clock to be injected.
-/

/-- Error raised by a division whose denominator is zero, mirroring Python's
`ZeroDivisionError` for float division. -/
inductive Err where
  | divByZero
  deriving DecidableEq, Repr

/-- Checked division on rationals: Python float division raises on a zero
denominator instead of returning a value. -/
def qdiv (a b : ℚ) : Except Err ℚ :=
  if b = 0 then .error .divByZero else .ok (a / b)

/-- The value of the `structure` field of `MarketState` (descriptive only; it
is not consumed by the scoring logic). -/
inductive StructureTag where
  | breakdown
  | consolidation
  | breakout
  deriving DecidableEq, Repr

/-- The `MarketState` dataclass: one immutable snapshot of market conditions.
The Python field `structure` is a Lean keyword and is rendered `structure_tag`. -/
structure MarketState where
  price : ℚ
  funding_rate : ℚ
  funding_countdown_hours : ℚ
  volume_24h : ℚ
  rsi_1h : ℚ
  support_level : ℚ
  resistance_level : ℚ
  structure_tag : StructureTag
  deriving DecidableEq, Repr

/-- The mutable instance state of `BTCFlushPredictor`: `self.flush_probability`
and the `self.features` dict, the latter modelled by one optional field per
key it can hold (`funding_pressure`, `structure_score`); `none` means the key
is absent. -/
structure Predictor where
  flush_probability : ℚ
  features_funding_pressure : Option ℚ
  features_structure_score : Option ℚ
  deriving DecidableEq, Repr

/-- `BTCFlushPredictor.__init__`: `flush_probability = 0.0`, `features` empty. -/
def initPredictor : Predictor :=
  { flush_probability := 0
    features_funding_pressure := none
    features_structure_score := none }

/-- The dict returned by `BTCFlushPredictor.predict`; its `features` entry is
the predictor's features dict at return time. -/
structure PredictionResult where
  flush_probability : ℚ
  target_price : ℚ
  regime : String
  signal : String
  features_funding_pressure : Option ℚ
  features_structure_score : Option ℚ
  confidence : String
  deriving DecidableEq, Repr

/-- The value computed by `BTCFlushPredictor.calculate_funding_pressure`:
normalised funding rate times clamped time pressure times the trapped-longs
penalty; fails exactly where the Python division by `resistance_level`
would raise. -/
def funding_pressure_calc (state : MarketState) : Except Err ℚ :=
  let funding_z := min (|state.funding_rate| / 0.0008) 1.0
  let time_pressure := max 0.3 (min (1 - state.funding_countdown_hours / 8) 0.95)
  match qdiv (state.resistance_level - state.price) state.resistance_level with
  | .error e => .error e
  | .ok price_vs_resistance =>
    let funding_penalty : ℚ :=
      if state.funding_rate > 0 ∧ price_vs_resistance > 0.01 then 1.5 else 1.0
    .ok (funding_z * time_pressure * funding_penalty)

/-- `BTCFlushPredictor.calculate_funding_pressure` as a transformer of the
predictor instance: on success the value is recorded in `features` under
`funding_pressure` and returned; a raised error leaves the instance as it
was (the dict assignment is the last step of the method). -/
def calculate_funding_pressure (p : Predictor) (state : MarketState) :
    Predictor × Except Err ℚ :=
  match funding_pressure_calc state with
  | .error e => (p, .error e)
  | .ok v => ({ p with features_funding_pressure := some v }, .ok v)

/-- The breakdown-severity branch of `BTCFlushPredictor.structural_breakdown_score`:
`1.0` when the price is already below support, otherwise a severity that decays
with the distance above support; fails exactly where the Python division by
`support_level` would raise. -/
def breakdown_severity_calc (state : MarketState) : Except Err ℚ :=
  if state.price < state.support_level then .ok 1.0
  else
    match qdiv (state.price - state.support_level) state.support_level with
    | .error e => .error e
    | .ok distance_to_support => .ok (max 0 (1 - distance_to_support * 10))

/-- The value computed by `BTCFlushPredictor.structural_breakdown_score`:
weighted sum of breakdown severity, volume confirmation and RSI context. -/
def structure_score_calc (state : MarketState) : Except Err ℚ :=
  match breakdown_severity_calc state with
  | .error e => .error e
  | .ok breakdown_severity =>
    let volume_score := min (state.volume_24h / 5000000000) 1.0
    let rsi_score := if state.rsi_1h < 50 then (50 - state.rsi_1h) / 50 else 0
    .ok (breakdown_severity * 0.5 + volume_score * 0.3 + rsi_score * 0.2)

/-- `BTCFlushPredictor.structural_breakdown_score` as a transformer of the
predictor instance: on success the value is recorded in `features` under
`structure_score` and returned. -/
def structural_breakdown_score (p : Predictor) (state : MarketState) :
    Predictor × Except Err ℚ :=
  match structure_score_calc state with
  | .error e => (p, .error e)
  | .ok v => ({ p with features_structure_score := some v }, .ok v)

/-- `BTCFlushPredictor.time_regime_classifier`, with the wall-clock hour read
by the source (`datetime.utcnow().hour`) passed explicitly, as the
specification injects it.  The source's `0 <= hour_utc` test is vacuous on `ℕ`. -/
def time_regime_classifier (state : MarketState) (hour_utc : ℕ) : String :=
  if 8 ≤ hour_utc ∧ hour_utc < 16 then
    if state.funding_countdown_hours < 1 then "funding_liquidation_window"
    else "consolidation_bleed"
  else if hour_utc < 8 then "asia_deleveraging"
  else if 19 ≤ hour_utc ∧ hour_utc ≤ 21 then "us_momentum"
  else "standard"

/-- `BTCFlushPredictor.predict`: the main prediction engine.  The mutable
predictor instance is threaded through the two scorers; a raised division
error propagates, leaving the instance as the scorers left it, exactly as a
Python exception would. -/
def predict (p : Predictor) (state : MarketState) (hour_utc : ℕ) :
    Predictor × Except Err PredictionResult :=
  match calculate_funding_pressure p state with
  | (p1, .error e) => (p1, .error e)
  | (p1, .ok funding_pain) =>
    match structural_breakdown_score p1 state with
    | (p2, .error e) => (p2, .error e)
    | (p2, .ok structural_damage) =>
      let regime := time_regime_classifier state hour_utc
      let (fl, target) :=
        if regime = "funding_liquidation_window" ∧ funding_pain > 0.6 then
          (min (funding_pain * structural_damage * 1.2) 0.85,
           state.support_level * 0.995)
        else if structural_damage > 0.7 ∧ state.funding_rate > 0 then
          (structural_damage * 0.8, state.support_level)
        else if regime = "consolidation_bleed" ∧ state.rsi_1h < 40 then
          ((0.5 : ℚ), state.support_level)
        else
          ((0.2 : ℚ), state.resistance_level)
      let p3 := { p2 with flush_probability := fl }
      (p3,
       .ok { flush_probability := p3.flush_probability
             target_price := target
             regime := regime
             signal :=
               if p3.flush_probability > 0.65 then "SHORT_FLUSH"
               else "NEUTRAL/CONSOLIDATION"
             features_funding_pressure := p3.features_funding_pressure
             features_structure_score := p3.features_structure_score
             confidence :=
               if p3.flush_probability > 0.7 then "HIGH"
               else if p3.flush_probability > 0.5 then "MEDIUM"
               else "LOW" })

/-- Closed form of the funding-pressure value on inputs where its division is
defined (total rational division stands in for the checked one). -/
def funding_pressure_val (state : MarketState) : ℚ :=
  min (|state.funding_rate| / 0.0008) 1.0 *
    max 0.3 (min (1 - state.funding_countdown_hours / 8) 0.95) *
    (if state.funding_rate > 0 ∧
        (state.resistance_level - state.price) / state.resistance_level > 0.01
     then 1.5 else 1.0)

/-- Closed form of the structural-breakdown value on inputs where its division
is defined. -/
def structure_score_val (state : MarketState) : ℚ :=
  (if state.price < state.support_level then 1.0
   else max 0 (1 - (state.price - state.support_level) / state.support_level * 10)) * 0.5 +
    min (state.volume_24h / 5000000000) 1.0 * 0.3 +
    (if state.rsi_1h < 50 then (50 - state.rsi_1h) / 50 else 0) * 0.2

/-- Closed form of the flush probability chosen by `predict`'s rule list. -/
def flush_val (state : MarketState) (hour_utc : ℕ) : ℚ :=
  if time_regime_classifier state hour_utc = "funding_liquidation_window" ∧
      funding_pressure_val state > 0.6 then
    min (funding_pressure_val state * structure_score_val state * 1.2) 0.85
  else if structure_score_val state > 0.7 ∧ state.funding_rate > 0 then
    structure_score_val state * 0.8
  else if time_regime_classifier state hour_utc = "consolidation_bleed" ∧
      state.rsi_1h < 40 then 0.5
  else 0.2

/-- Closed form of the target price chosen by `predict`'s rule list. -/
def target_val (state : MarketState) (hour_utc : ℕ) : ℚ :=
  if time_regime_classifier state hour_utc = "funding_liquidation_window" ∧
      funding_pressure_val state > 0.6 then
    state.support_level * 0.995
  else if structure_score_val state > 0.7 ∧ state.funding_rate > 0 then
    state.support_level
  else if time_regime_classifier state hour_utc = "consolidation_bleed" ∧
      state.rsi_1h < 40 then state.support_level
  else state.resistance_level

/-- The reference snapshot from the source's command-line entry point,
evaluated there at 13:00 UTC. -/
def refState : MarketState :=
  { price := 82845
    funding_rate := 0.00060
    funding_countdown_hours := 2.95
    volume_24h := 3710000000
    rsi_1h := 37.5
    support_level := 81118
    resistance_level := 83400
    structure_tag := .consolidation }

/-- A fallback record used only to give `resultOf` a total type. -/
def fallbackResult : PredictionResult :=
  { flush_probability := 0
    target_price := 0
    regime := ""
    signal := ""
    features_funding_pressure := none
    features_structure_score := none
    confidence := "" }

/-- The prediction returned by a fresh predictor on a snapshot, when one is
returned at all. -/
def resultOf (state : MarketState) (hour_utc : ℕ) : PredictionResult :=
  match (predict initPredictor state hour_utc).2 with
  | .ok r => r
  | .error _ => fallbackResult

/-- Whether an evaluation produced a prediction rather than raising. -/
def isOk (e : Except Err PredictionResult) : Bool :=
  match e with
  | .ok _ => true
  | .error _ => false

/-- A snapshot with RSI in range and positive support and resistance levels
but a (large) negative 24h volume, placed in the funding-liquidation window. -/
def c1CexState : MarketState :=
  { price := 80000
    funding_rate := 0.0008
    funding_countdown_hours := 0.5
    volume_24h := -50000000000
    rsi_1h := 30
    support_level := 81118
    resistance_level := 83400
    structure_tag := .consolidation }

/-- The reference snapshot with its support level replaced by zero. -/
def s3State : MarketState :=
  { refState with support_level := 0 }

/-- A snapshot whose price sits below support, with the volume and RSI of the
specification's structural-scorer example. -/
def c7State : MarketState :=
  { price := 80000
    funding_rate := 0.00060
    funding_countdown_hours := 2.95
    volume_24h := 5000000000
    rsi_1h := 30
    support_level := 81118
    resistance_level := 83400
    structure_tag := .consolidation }

/-- A snapshot satisfying rule 1's and rule 2's conditions simultaneously at
13:00 UTC: funding-liquidation window, high funding pressure, broken
structure and positive funding. -/
def w5State : MarketState :=
  { price := 80000
    funding_rate := 0.0008
    funding_countdown_hours := 0.5
    volume_24h := 5000000000
    rsi_1h := 30
    support_level := 81118
    resistance_level := 83400
    structure_tag := .consolidation }

/-- On a snapshot with a nonzero resistance level, the funding-pressure
computation succeeds with its closed-form value. -/
lemma funding_pressure_calc_eq (state : MarketState)
    (hres : state.resistance_level ≠ 0) :
    funding_pressure_calc state = .ok (funding_pressure_val state) := by
  simp [funding_pressure_calc, funding_pressure_val, qdiv, hres]

/-- On a snapshot whose support level is nonzero (or whose price is already
below support, where no division happens), the structural computation
succeeds with its closed-form value. -/
lemma structure_score_calc_eq (state : MarketState)
    (h : state.support_level ≠ 0 ∨ state.price < state.support_level) :
    structure_score_calc state = .ok (structure_score_val state) := by
  by_cases hps : state.price < state.support_level
  · simp [structure_score_calc, breakdown_severity_calc, structure_score_val, hps]
  · rcases h with h | h
    · simp [structure_score_calc, breakdown_severity_calc, structure_score_val,
        hps, qdiv, h]
    · exact absurd h hps

/-- The funding-pressure value is never negative. -/
lemma funding_pressure_val_nonneg (state : MarketState) :
    0 ≤ funding_pressure_val state := by
  unfold funding_pressure_val
  have hz : (0:ℚ) ≤ min (|state.funding_rate| / 0.0008) 1.0 :=
    le_min (by positivity) (by norm_num)
  have ht : (0:ℚ) ≤ max 0.3 (min (1 - state.funding_countdown_hours / 8) 0.95) :=
    le_trans (by norm_num) (le_max_left _ _)
  split <;> nlinarith

/-- The funding-pressure value is at most `1.425 = 1.0 * 0.95 * 1.5`. -/
lemma funding_pressure_val_le (state : MarketState) :
    funding_pressure_val state ≤ 1.425 := by
  unfold funding_pressure_val
  have hz0 : (0:ℚ) ≤ min (|state.funding_rate| / 0.0008) 1.0 :=
    le_min (by positivity) (by norm_num)
  have hz1 : min (|state.funding_rate| / 0.0008) 1.0 ≤ (1:ℚ) := by
    have := min_le_right (|state.funding_rate| / 0.0008) 1.0
    linarith
  have ht0 : (0:ℚ) ≤ max 0.3 (min (1 - state.funding_countdown_hours / 8) 0.95) :=
    le_trans (by norm_num) (le_max_left _ _)
  have ht1 : max 0.3 (min (1 - state.funding_countdown_hours / 8) 0.95) ≤ 0.95 :=
    max_le (by norm_num) (min_le_right _ _)
  split <;> nlinarith

/-- With a non-negative 24h volume, the structural value is non-negative. -/
lemma structure_score_val_nonneg (state : MarketState)
    (hv : 0 ≤ state.volume_24h) : 0 ≤ structure_score_val state := by
  unfold structure_score_val
  have hvs : (0:ℚ) ≤ min (state.volume_24h / 5000000000) 1.0 :=
    le_min (by positivity) (by norm_num)
  have hbs : (0:ℚ) ≤ if state.price < state.support_level then (1.0:ℚ)
      else max 0 (1 - (state.price - state.support_level) / state.support_level * 10) := by
    split
    · norm_num
    · exact le_max_left _ _
  have hrs : (0:ℚ) ≤ if state.rsi_1h < 50 then (50 - state.rsi_1h) / 50 else 0 := by
    split
    · rename_i h; have : (0:ℚ) ≤ 50 - state.rsi_1h := by linarith
      positivity
    · exact le_refl 0
  have h1 := mul_nonneg hbs (by norm_num : (0:ℚ) ≤ 0.5)
  have h2 := mul_nonneg hvs (by norm_num : (0:ℚ) ≤ 0.3)
  have h3 := mul_nonneg hrs (by norm_num : (0:ℚ) ≤ 0.2)
  linarith

/-- With a positive support level and a non-negative RSI, the structural value
is at most one. -/
lemma structure_score_val_le_one (state : MarketState)
    (hs : 0 < state.support_level) (hr : 0 ≤ state.rsi_1h) :
    structure_score_val state ≤ 1 := by
  unfold structure_score_val
  have hvs : min (state.volume_24h / 5000000000) 1.0 ≤ (1:ℚ) := by
    have := min_le_right (state.volume_24h / 5000000000) 1.0
    linarith
  have hbs : (if state.price < state.support_level then (1.0:ℚ)
      else max 0 (1 - (state.price - state.support_level) / state.support_level * 10)) ≤ 1 := by
    split
    · norm_num
    · rename_i h
      have hd : (0:ℚ) ≤ (state.price - state.support_level) / state.support_level :=
        div_nonneg (by linarith [not_lt.mp h]) (le_of_lt hs)
      exact max_le (by norm_num) (by linarith)
  have hrs : (if state.rsi_1h < 50 then (50 - state.rsi_1h) / 50 else 0) ≤ 1 := by
    split
    · rename_i h
      rw [div_le_one (by norm_num : (0:ℚ) < 50)]
      linarith
    · norm_num
  linarith

/-- On a snapshot where both divisions are defined, `predict` returns the
fully-evaluated instance and result, expressed with the closed-form values. -/
lemma predict_eq (p : Predictor) (state : MarketState) (hour_utc : ℕ)
    (hres : state.resistance_level ≠ 0)
    (hsup : state.support_level ≠ 0 ∨ state.price < state.support_level) :
    predict p state hour_utc =
      ({ flush_probability := flush_val state hour_utc
         features_funding_pressure := some (funding_pressure_val state)
         features_structure_score := some (structure_score_val state) },
       Except.ok
         { flush_probability := flush_val state hour_utc
           target_price := target_val state hour_utc
           regime := time_regime_classifier state hour_utc
           signal :=
             if flush_val state hour_utc > 0.65 then "SHORT_FLUSH"
             else "NEUTRAL/CONSOLIDATION"
           features_funding_pressure := some (funding_pressure_val state)
           features_structure_score := some (structure_score_val state)
           confidence :=
             if flush_val state hour_utc > 0.7 then "HIGH"
             else if flush_val state hour_utc > 0.5 then "MEDIUM"
             else "LOW" }) := by
  unfold predict calculate_funding_pressure structural_breakdown_score
  rw [funding_pressure_calc_eq state hres, structure_score_calc_eq state hsup]
  unfold flush_val target_val
  by_cases h1 : time_regime_classifier state hour_utc = "funding_liquidation_window" ∧
      funding_pressure_val state > 0.6
  · simp [h1]
  · by_cases h2 : structure_score_val state > 0.7 ∧ state.funding_rate > 0
    · simp [h1, h2]
    · by_cases h3 : time_regime_classifier state hour_utc = "consolidation_bleed" ∧
          state.rsi_1h < 40
      · simp [h1, h2, h3]
      · simp [h1, h2, h3]

/-- A successful `predict` run implies that both input-dependent divisions
were defined. -/
lemma predict_ok_valid (p : Predictor) (state : MarketState) (hour_utc : ℕ)
    (r : PredictionResult) (hok : (predict p state hour_utc).2 = .ok r) :
    state.resistance_level ≠ 0 ∧
      (state.support_level ≠ 0 ∨ state.price < state.support_level) := by
  have hres : state.resistance_level ≠ 0 := by
    intro h0
    have hfp : funding_pressure_calc state = .error .divByZero := by
      simp [funding_pressure_calc, qdiv, h0]
    simp [predict, calculate_funding_pressure, hfp] at hok
  refine ⟨hres, ?_⟩
  by_cases h2 : state.support_level = 0
  · by_cases h3 : state.price < state.support_level
    · exact Or.inr h3
    · exfalso
      have hss : structure_score_calc state = .error .divByZero := by
        have h3' : ¬ state.price < 0 := by rw [h2] at h3; exact h3
        simp [structure_score_calc, breakdown_severity_calc, qdiv, h2, h3']
      simp [predict, calculate_funding_pressure, structural_breakdown_score,
        funding_pressure_calc_eq state hres, hss] at hok
  · exact Or.inl h2

/-- C2 counterexample: on the reference snapshot at hour 13 the prediction is
returned with `flush_probability = 0.5`, but its confidence label is `LOW`,
not `MEDIUM` as the claim states (the code's rule is a strict `> 0.5`). -/
theorem C2_counterexample :
    isOk (predict initPredictor refState 13).2 = true ∧
      (resultOf refState 13).flush_probability = 0.5 ∧
      (resultOf refState 13).confidence = "LOW" ∧
      ¬ (resultOf refState 13).confidence = "MEDIUM" := by
  have hne : ¬ (("consolidation_bleed" : String) = "funding_liquidation_window") := by
    decide
  have hne2 : ¬ (("LOW" : String) = "MEDIUM") := by decide
  norm_num [isOk, resultOf, predict, calculate_funding_pressure, funding_pressure_calc,
    structural_breakdown_score, structure_score_calc, breakdown_severity_calc, qdiv,
    time_regime_classifier, initPredictor, refState, hne, hne2]

/-- C2 (amended): on the reference snapshot at hour 13, `predict` returns
regime `consolidation_bleed`, flush probability exactly `0.5`, target price
`81118`, the neutral signal, and confidence `LOW` (0.5 is not strictly
greater than 0.5). -/
theorem C2_amended_reference_scenario :
    isOk (predict initPredictor refState 13).2 = true ∧
      (resultOf refState 13).regime = "consolidation_bleed" ∧
      (resultOf refState 13).flush_probability = 0.5 ∧
      (resultOf refState 13).target_price = 81118 ∧
      (resultOf refState 13).signal = "NEUTRAL/CONSOLIDATION" ∧
      (resultOf refState 13).confidence = "LOW" := by
  have hne : ¬ (("consolidation_bleed" : String) = "funding_liquidation_window") := by
    decide
  norm_num [isOk, resultOf, predict, calculate_funding_pressure, funding_pressure_calc,
    structural_breakdown_score, structure_score_calc, breakdown_severity_calc, qdiv,
    time_regime_classifier, initPredictor, refState, hne]

/-- C3 counterexample: with `support_level = 0` (and nonzero resistance) the
evaluation does fail, but not before any score is computed: the
funding-pressure score has already been computed and recorded in the
predictor's features when the division error is raised. -/
theorem C3_counterexample :
    s3State.support_level = 0 ∧
      (predict initPredictor s3State 13).2 = Except.error Err.divByZero ∧
      (predict initPredictor s3State 13).1.features_funding_pressure =
        some (303/640) := by
  refine ⟨by norm_num [s3State, refState], ?_, ?_⟩
  · norm_num [predict, calculate_funding_pressure, funding_pressure_calc,
      structural_breakdown_score, structure_score_calc, breakdown_severity_calc,
      qdiv, s3State, refState, initPredictor]
  · norm_num [predict, calculate_funding_pressure, funding_pressure_calc,
      structural_breakdown_score, structure_score_calc, breakdown_severity_calc,
      qdiv, s3State, refState, initPredictor, abs_eq_max_neg, min_def, max_def]

/-- C3 (amended): for every snapshot with a positive price, if the resistance
level or the support level is zero then `predict` produces no result: it
fails with the division-by-zero error raised inside the first scorer that
divides by the zero level (there is no up-front validation). -/
theorem C3_amended_divzero_failure (state : MarketState) (hour_utc : ℕ)
    (p : Predictor) (hp : 0 < state.price)
    (h : state.resistance_level = 0 ∨ state.support_level = 0) :
    (predict p state hour_utc).2 = Except.error Err.divByZero := by
  rcases h with h | h
  · have hfp : funding_pressure_calc state = .error .divByZero := by
      simp [funding_pressure_calc, qdiv, h]
    simp [predict, calculate_funding_pressure, hfp]
  · by_cases hres : state.resistance_level = 0
    · have hfp : funding_pressure_calc state = .error .divByZero := by
        simp [funding_pressure_calc, qdiv, hres]
      simp [predict, calculate_funding_pressure, hfp]
    · have hss : structure_score_calc state = .error .divByZero := by
        have h3' : ¬ state.price < (0:ℚ) := lt_asymm hp
        simp [structure_score_calc, breakdown_severity_calc, qdiv, h, h3']
      simp [predict, calculate_funding_pressure, structural_breakdown_score,
        funding_pressure_calc_eq state hres, hss]

/-- C3 witness: the amended failure theorem applied to the zero-support
snapshot. -/
theorem C3_witness :
    (predict initPredictor s3State 13).2 = Except.error Err.divByZero :=
  C3_amended_divzero_failure s3State 13 initPredictor
    (by norm_num [s3State, refState]) (Or.inr (by norm_num [s3State, refState]))

/-- C4: `predict` is deterministic and free of hidden mutable state: its
outcome does not depend on the predictor instance's prior state, so a second
call on identical snapshot and injected hour returns the identical result;
and the regime label is a pure function of the hour and the funding
countdown alone. -/
theorem C4_determinism :
    (∀ (p1 p2 : Predictor) (state : MarketState) (hour_utc : ℕ),
        (predict p1 state hour_utc).2 = (predict p2 state hour_utc).2) ∧
      (∀ (p : Predictor) (state : MarketState) (hour_utc : ℕ),
        (predict (predict p state hour_utc).1 state hour_utc).2 =
          (predict p state hour_utc).2) ∧
      (∀ (s1 s2 : MarketState) (hour_utc : ℕ),
        s1.funding_countdown_hours = s2.funding_countdown_hours →
        time_regime_classifier s1 hour_utc = time_regime_classifier s2 hour_utc) := by
  have key : ∀ (p1 p2 : Predictor) (state : MarketState) (hour_utc : ℕ),
      (predict p1 state hour_utc).2 = (predict p2 state hour_utc).2 := by
    intro p1 p2 state hour_utc
    unfold predict calculate_funding_pressure structural_breakdown_score
    cases funding_pressure_calc state with
    | error e => rfl
    | ok v =>
      cases structure_score_calc state with
      | error e => rfl
      | ok w => rfl
  refine ⟨key, fun p state hour_utc => key _ p state hour_utc, ?_⟩
  intro s1 s2 hour_utc heq
  unfold time_regime_classifier
  rw [heq]

/-- C4 witness: the determinism theorem applied to a predictor instance with
stale state, to a repeated call, and to two snapshots sharing a countdown. -/
theorem C4_witness :
    (predict { flush_probability := 7, features_funding_pressure := some 3,
               features_structure_score := some 4 } refState 13).2 =
        (predict initPredictor refState 13).2 ∧
      (predict (predict initPredictor refState 13).1 refState 13).2 =
        (predict initPredictor refState 13).2 ∧
      time_regime_classifier refState 13 = time_regime_classifier c7State 13 :=
  ⟨C4_determinism.1 _ initPredictor refState 13,
   C4_determinism.2.1 initPredictor refState 13,
   C4_determinism.2.2 refState c7State 13 rfl⟩

/-- C8: the regime classifier returns `funding_liquidation_window` in hours
8-15 with a countdown under one hour, `consolidation_bleed` in those hours
otherwise, `asia_deleveraging` in hours 0-7, `us_momentum` in hours 19-21,
and `standard` on the remaining hours of the day; including the named
concrete cases. -/
theorem C8_regime_classifier :
    (∀ (state : MarketState) (hour_utc : ℕ), 8 ≤ hour_utc → hour_utc < 16 →
        state.funding_countdown_hours < 1 →
        time_regime_classifier state hour_utc = "funding_liquidation_window") ∧
      (∀ (state : MarketState) (hour_utc : ℕ), 8 ≤ hour_utc → hour_utc < 16 →
        ¬ state.funding_countdown_hours < 1 →
        time_regime_classifier state hour_utc = "consolidation_bleed") ∧
      (∀ (state : MarketState) (hour_utc : ℕ), hour_utc < 8 →
        time_regime_classifier state hour_utc = "asia_deleveraging") ∧
      (∀ (state : MarketState) (hour_utc : ℕ), 19 ≤ hour_utc → hour_utc ≤ 21 →
        time_regime_classifier state hour_utc = "us_momentum") ∧
      (∀ (state : MarketState) (hour_utc : ℕ), hour_utc ≤ 23 →
        ¬ (8 ≤ hour_utc ∧ hour_utc < 16) → ¬ hour_utc < 8 →
        ¬ (19 ≤ hour_utc ∧ hour_utc ≤ 21) →
        time_regime_classifier state hour_utc = "standard") ∧
      time_regime_classifier { refState with funding_countdown_hours := 0.5 } 13 =
        "funding_liquidation_window" ∧
      time_regime_classifier { refState with funding_countdown_hours := 3 } 13 =
        "consolidation_bleed" ∧
      time_regime_classifier refState 5 = "asia_deleveraging" ∧
      time_regime_classifier refState 20 = "us_momentum" ∧
      time_regime_classifier refState 23 = "standard" := by
  refine ⟨?_, ?_, ?_, ?_, ?_,
    by norm_num [time_regime_classifier, refState],
    by norm_num [time_regime_classifier, refState],
    by norm_num [time_regime_classifier, refState],
    by norm_num [time_regime_classifier, refState],
    by norm_num [time_regime_classifier, refState]⟩
  · intro s h h8 h16 hcd
    unfold time_regime_classifier
    rw [if_pos ⟨h8, h16⟩, if_pos hcd]
  · intro s h h8 h16 hcd
    unfold time_regime_classifier
    rw [if_pos ⟨h8, h16⟩, if_neg hcd]
  · intro s h hlt
    unfold time_regime_classifier
    rw [if_neg (by omega : ¬ (8 ≤ h ∧ h < 16)), if_pos hlt]
  · intro s h h19 h21
    unfold time_regime_classifier
    rw [if_neg (by omega : ¬ (8 ≤ h ∧ h < 16)), if_neg (by omega : ¬ h < 8),
      if_pos ⟨h19, h21⟩]
  · intro s h h23 hA hB hC
    unfold time_regime_classifier
    rw [if_neg hA, if_neg hB, if_neg hC]

/-- C8 witness: the classifier table applied at the reference snapshot for an
afternoon hour with a long countdown and for an Asian-session hour. -/
theorem C8_witness :
    time_regime_classifier refState 13 = "consolidation_bleed" ∧
      time_regime_classifier refState 5 = "asia_deleveraging" :=
  ⟨C8_regime_classifier.2.1 refState 13 (by decide) (by decide)
      (by norm_num [refState]),
   C8_regime_classifier.2.2.1 refState 5 (by decide)⟩

/-- C1 counterexample: a snapshot with RSI in range and positive support and
resistance levels, but a negative 24h volume, for which `predict` returns a
negative flush probability: the claimed preconditions do not suffice for the
lower bound. -/
theorem C1_counterexample :
    0 ≤ c1CexState.rsi_1h ∧ c1CexState.rsi_1h ≤ 100 ∧
      0 < c1CexState.support_level ∧ 0 < c1CexState.resistance_level ∧
      isOk (predict initPredictor c1CexState 13).2 = true ∧
      (resultOf c1CexState 13).flush_probability < 0 := by
  norm_num [isOk, resultOf, predict, calculate_funding_pressure, funding_pressure_calc,
    structural_breakdown_score, structure_score_calc, breakdown_severity_calc, qdiv,
    time_regime_classifier, initPredictor, c1CexState, abs_eq_max_neg, min_def, max_def]

/-- C1 (amended): for every snapshot with RSI in the range 0-100 and positive
support and resistance levels, any returned flush probability is at most
0.85, and it is additionally non-negative whenever the 24h volume is
non-negative. -/
theorem C1_amended_flush_bounds (state : MarketState) (hour_utc : ℕ) (p : Predictor)
    (r : PredictionResult)
    (h1 : 0 ≤ state.rsi_1h) (h2 : state.rsi_1h ≤ 100)
    (h3 : 0 < state.support_level) (h4 : 0 < state.resistance_level)
    (hok : (predict p state hour_utc).2 = Except.ok r) :
    r.flush_probability ≤ 0.85 ∧ (0 ≤ state.volume_24h → 0 ≤ r.flush_probability) := by
  rw [predict_eq p state hour_utc (ne_of_gt h4) (Or.inl (ne_of_gt h3))] at hok
  have hr := (Except.ok.inj hok).symm
  subst hr
  show flush_val state hour_utc ≤ 0.85 ∧
    (0 ≤ state.volume_24h → 0 ≤ flush_val state hour_utc)
  constructor
  · have hsd1 := structure_score_val_le_one state h3 h1
    unfold flush_val
    split
    · exact min_le_right _ _
    · split
      · linarith
      · split
        · norm_num
        · norm_num
  · intro hv
    have hfp0 := funding_pressure_val_nonneg state
    have hsd0 := structure_score_val_nonneg state hv
    unfold flush_val
    split
    · refine le_min ?_ (by norm_num)
      have := mul_nonneg (mul_nonneg hfp0 hsd0) (by norm_num : (0:ℚ) ≤ 1.2)
      linarith
    · split
      · rename_i hc
        have := hc.1
        linarith
      · split
        · norm_num
        · norm_num

/-- C1 witness: the amended bounds at the reference snapshot and hour 13. -/
theorem C1_witness :
    (resultOf refState 13).flush_probability ≤ 0.85 ∧
      (0 ≤ refState.volume_24h → 0 ≤ (resultOf refState 13).flush_probability) :=
  C1_amended_flush_bounds refState 13 initPredictor (resultOf refState 13)
    (by norm_num [refState]) (by norm_num [refState]) (by norm_num [refState])
    (by norm_num [refState])
    (by norm_num [resultOf, predict, calculate_funding_pressure, funding_pressure_calc,
      structural_breakdown_score, structure_score_calc, breakdown_severity_calc, qdiv,
      time_regime_classifier, initPredictor, refState, abs_eq_max_neg, min_def, max_def])

/-- C5: first-match-wins precedence of the rule list: on any snapshot that
satisfies rule 1's condition (funding-liquidation regime with funding
pressure above 0.6) and simultaneously rule 2's condition (structure score
above 0.7 with positive funding), `predict` uses rule 1's outcome. -/
theorem C5_precedence (state : MarketState) (hour_utc : ℕ) (p : Predictor)
    (r : PredictionResult)
    (hres : state.resistance_level ≠ 0) (hsup : state.support_level ≠ 0)
    (h1 : time_regime_classifier state hour_utc = "funding_liquidation_window")
    (h2 : funding_pressure_val state > 0.6)
    (h3 : structure_score_val state > 0.7)
    (h4 : state.funding_rate > 0)
    (hok : (predict p state hour_utc).2 = Except.ok r) :
    r.flush_probability =
        min (funding_pressure_val state * structure_score_val state * 1.2) 0.85 ∧
      r.target_price = state.support_level * 0.995 := by
  rw [predict_eq p state hour_utc hres (Or.inl hsup)] at hok
  have hr := (Except.ok.inj hok).symm
  subst hr
  constructor
  · show flush_val state hour_utc =
      min (funding_pressure_val state * structure_score_val state * 1.2) 0.85
    unfold flush_val
    rw [if_pos ⟨h1, h2⟩]
  · show target_val state hour_utc = state.support_level * 0.995
    unfold target_val
    rw [if_pos ⟨h1, h2⟩]

/-- C5 witness: the precedence theorem at a snapshot satisfying rules 1 and 2
at once. -/
theorem C5_witness :
    (resultOf w5State 13).flush_probability =
        min (funding_pressure_val w5State * structure_score_val w5State * 1.2) 0.85 ∧
      (resultOf w5State 13).target_price = w5State.support_level * 0.995 :=
  C5_precedence w5State 13 initPredictor (resultOf w5State 13)
    (by norm_num [w5State]) (by norm_num [w5State])
    (by norm_num [time_regime_classifier, w5State])
    (by norm_num [funding_pressure_val, w5State, abs_eq_max_neg, min_def, max_def])
    (by norm_num [structure_score_val, w5State, min_def, max_def])
    (by norm_num [w5State])
    (by norm_num [resultOf, predict, calculate_funding_pressure, funding_pressure_calc,
      structural_breakdown_score, structure_score_calc, breakdown_severity_calc, qdiv,
      time_regime_classifier, initPredictor, w5State, abs_eq_max_neg, min_def, max_def])

/-- C6: every funding-pressure score the scorer returns is non-negative and at
most 1.425, and it exceeds 1 exactly when the 1.5 trapped-longs penalty
applies and the normalised funding rate times the time pressure exceeds
two thirds. -/
theorem C6_funding_pressure_range (state : MarketState) (p : Predictor) (v : ℚ)
    (hok : (calculate_funding_pressure p state).2 = Except.ok v) :
    0 ≤ v ∧ v ≤ 1.425 ∧
      (1 < v ↔
        (state.funding_rate > 0 ∧
            (state.resistance_level - state.price) / state.resistance_level > 0.01) ∧
          2/3 < min (|state.funding_rate| / 0.0008) 1.0 *
            max 0.3 (min (1 - state.funding_countdown_hours / 8) 0.95)) := by
  have hres : state.resistance_level ≠ 0 := by
    intro h0
    have hfp : funding_pressure_calc state = .error .divByZero := by
      simp [funding_pressure_calc, qdiv, h0]
    simp [calculate_funding_pressure, hfp] at hok
  have hcalc : (calculate_funding_pressure p state).2 =
      Except.ok (funding_pressure_val state) := by
    simp [calculate_funding_pressure, funding_pressure_calc_eq state hres]
  rw [hcalc] at hok
  have hv := Except.ok.inj hok
  subst hv
  refine ⟨funding_pressure_val_nonneg state, funding_pressure_val_le state, ?_⟩
  unfold funding_pressure_val
  set z := min (|state.funding_rate| / 0.0008) 1.0 with hzdef
  set t := max 0.3 (min (1 - state.funding_countdown_hours / 8) 0.95) with htdef
  have hz0 : (0:ℚ) ≤ z := by
    rw [hzdef]; exact le_min (by positivity) (by norm_num)
  have hz1 : z ≤ (1:ℚ) := by
    rw [hzdef]
    have := min_le_right (|state.funding_rate| / 0.0008) 1.0
    linarith
  have ht0 : (0:ℚ) ≤ t := by
    rw [htdef]; exact le_trans (by norm_num) (le_max_left _ _)
  have ht1 : t ≤ (0.95:ℚ) := by
    rw [htdef]; exact max_le (by norm_num) (min_le_right _ _)
  by_cases hc : state.funding_rate > 0 ∧
      (state.resistance_level - state.price) / state.resistance_level > 0.01
  · rw [if_pos hc]
    constructor
    · intro h
      exact ⟨hc, by linarith⟩
    · rintro ⟨-, h⟩
      linarith
  · rw [if_neg hc]
    constructor
    · intro h
      exfalso
      have hzt : z * t ≤ 1 * 0.95 := mul_le_mul hz1 ht1 ht0 (by norm_num)
      linarith
    · rintro ⟨hc', -⟩
      exact absurd hc' hc

/-- C6 witness: the range theorem at the reference snapshot, whose
funding-pressure score is 303/640. -/
theorem C6_witness :
    0 ≤ (303/640 : ℚ) ∧ (303/640 : ℚ) ≤ 1.425 ∧
      (1 < (303/640 : ℚ) ↔
        (refState.funding_rate > 0 ∧
            (refState.resistance_level - refState.price) / refState.resistance_level >
              0.01) ∧
          2/3 < min (|refState.funding_rate| / 0.0008) 1.0 *
            max 0.3 (min (1 - refState.funding_countdown_hours / 8) 0.95)) :=
  C6_funding_pressure_range refState initPredictor (303/640)
    (by norm_num [calculate_funding_pressure, funding_pressure_calc, qdiv, refState,
      initPredictor, abs_eq_max_neg, min_def, max_def])

/-- C7: whenever the price sits below the support level the structural scorer
returns exactly `0.5 + volumeScore * 0.3 + momentumScore * 0.2`, and on the
specification's example snapshot it returns 0.88. -/
theorem C7_structural_breakdown :
    (∀ (state : MarketState) (p : Predictor), state.price < state.support_level →
        (structural_breakdown_score p state).2 =
          Except.ok (0.5 + min (state.volume_24h / 5000000000) 1.0 * 0.3 +
            (if state.rsi_1h < 50 then (50 - state.rsi_1h) / 50 else 0) * 0.2)) ∧
      (structural_breakdown_score initPredictor c7State).2 = Except.ok 0.88 := by
  constructor
  · intro state p h
    have hcalc : structure_score_calc state = .ok (structure_score_val state) :=
      structure_score_calc_eq state (Or.inr h)
    simp only [structural_breakdown_score, hcalc]
    unfold structure_score_val
    rw [if_pos h]
    norm_num
  · norm_num [structural_breakdown_score, structure_score_calc,
      breakdown_severity_calc, qdiv, c7State]

/-- C7 witness: the structural-scorer formula at the example snapshot. -/
theorem C7_witness :
    (structural_breakdown_score initPredictor c7State).2 =
      Except.ok (0.5 + min (c7State.volume_24h / 5000000000) 1.0 * 0.3 +
        (if c7State.rsi_1h < 50 then (50 - c7State.rsi_1h) / 50 else 0) * 0.2) :=
  C7_structural_breakdown.1 c7State initPredictor (by norm_num [c7State])

/-- C9: any prediction whose confidence label is HIGH carries the SHORT_FLUSH
signal, because confidence HIGH forces a flush probability above 0.7 and the
signal threshold is 0.65. -/
theorem C9_high_confidence_signal (state : MarketState) (hour_utc : ℕ)
    (p : Predictor) (r : PredictionResult)
    (hok : (predict p state hour_utc).2 = Except.ok r)
    (hc : r.confidence = "HIGH") : r.signal = "SHORT_FLUSH" := by
  obtain ⟨hres, hsup⟩ := predict_ok_valid p state hour_utc r hok
  rw [predict_eq p state hour_utc hres hsup] at hok
  have hr := (Except.ok.inj hok).symm
  subst hr
  have hc' : (if flush_val state hour_utc > 0.7 then "HIGH"
      else if flush_val state hour_utc > 0.5 then "MEDIUM" else "LOW") = "HIGH" := hc
  by_cases h7 : flush_val state hour_utc > 0.7
  · show (if flush_val state hour_utc > 0.65 then "SHORT_FLUSH"
      else "NEUTRAL/CONSOLIDATION") = "SHORT_FLUSH"
    rw [if_pos (by linarith : flush_val state hour_utc > 0.65)]
  · exfalso
    rw [if_neg h7] at hc'
    by_cases h5 : flush_val state hour_utc > 0.5
    · rw [if_pos h5] at hc'
      exact absurd hc' (by decide)
    · rw [if_neg h5] at hc'
      exact absurd hc' (by decide)

/-- C9 witness: the HIGH-confidence implication at a snapshot whose flush
probability is 0.85. -/
theorem C9_witness : (resultOf w5State 13).signal = "SHORT_FLUSH" :=
  C9_high_confidence_signal w5State 13 initPredictor (resultOf w5State 13)
    (by norm_num [resultOf, predict, calculate_funding_pressure, funding_pressure_calc,
      structural_breakdown_score, structure_score_calc, breakdown_severity_calc, qdiv,
      time_regime_classifier, initPredictor, w5State, abs_eq_max_neg, min_def, max_def])
    (by norm_num [resultOf, predict, calculate_funding_pressure, funding_pressure_calc,
      structural_breakdown_score, structure_score_calc, breakdown_severity_calc, qdiv,
      time_regime_classifier, initPredictor, w5State, abs_eq_max_neg, min_def, max_def])

/-- C10: any prediction carrying the SHORT_FLUSH signal has target price
`supportLevel * 0.995` or `supportLevel`, never the resistance target of the
default rule, because only rules 1 and 2 can push the flush probability
above 0.65. -/
theorem C10_short_flush_target (state : MarketState) (hour_utc : ℕ)
    (p : Predictor) (r : PredictionResult)
    (hok : (predict p state hour_utc).2 = Except.ok r)
    (hs : r.signal = "SHORT_FLUSH") :
    r.target_price = state.support_level * 0.995 ∨
      r.target_price = state.support_level := by
  obtain ⟨hres, hsup⟩ := predict_ok_valid p state hour_utc r hok
  rw [predict_eq p state hour_utc hres hsup] at hok
  have hr := (Except.ok.inj hok).symm
  subst hr
  have hs' : (if flush_val state hour_utc > 0.65 then "SHORT_FLUSH"
      else "NEUTRAL/CONSOLIDATION") = "SHORT_FLUSH" := hs
  have h65 : flush_val state hour_utc > 0.65 := by
    by_contra h
    rw [if_neg h] at hs'
    exact absurd hs' (by decide)
  show target_val state hour_utc = state.support_level * 0.995 ∨
    target_val state hour_utc = state.support_level
  by_cases hc1 : time_regime_classifier state hour_utc = "funding_liquidation_window" ∧
      funding_pressure_val state > 0.6
  · left
    unfold target_val
    rw [if_pos hc1]
  · by_cases hc2 : structure_score_val state > 0.7 ∧ state.funding_rate > 0
    · right
      unfold target_val
      rw [if_neg hc1, if_pos hc2]
    · exfalso
      by_cases hc3 : time_regime_classifier state hour_utc = "consolidation_bleed" ∧
          state.rsi_1h < 40
      · have hfv : flush_val state hour_utc = 0.5 := by
          unfold flush_val
          rw [if_neg hc1, if_neg hc2, if_pos hc3]
        rw [hfv] at h65
        norm_num at h65
      · have hfv : flush_val state hour_utc = 0.2 := by
          unfold flush_val
          rw [if_neg hc1, if_neg hc2, if_neg hc3]
        rw [hfv] at h65
        norm_num at h65

/-- C10 witness: the SHORT_FLUSH target location at a snapshot where rule 1
fires. -/
theorem C10_witness :
    (resultOf w5State 13).target_price = w5State.support_level * 0.995 ∨
      (resultOf w5State 13).target_price = w5State.support_level :=
  C10_short_flush_target w5State 13 initPredictor (resultOf w5State 13)
    (by norm_num [resultOf, predict, calculate_funding_pressure, funding_pressure_calc,
      structural_breakdown_score, structure_score_calc, breakdown_severity_calc, qdiv,
      time_regime_classifier, initPredictor, w5State, abs_eq_max_neg, min_def, max_def])
    (by norm_num [resultOf, predict, calculate_funding_pressure, funding_pressure_calc,
      structural_breakdown_score, structure_score_calc, breakdown_severity_calc, qdiv,
      time_regime_classifier, initPredictor, w5State, abs_eq_max_neg, min_def, max_def])
